import Mathlib

/-!
Verification development for the point-cloud processing engine
(`src/pointcloud_processor.py`).  The Python code is shallowly embedded:
coordinates are rationals, the global NumPy random generator is an explicit
state record together with abstract seed-indexed draw streams, fallible
operations (NumPy reductions over empty selections, sklearn parameter
validation) return `Except`, and NaN results of NumPy reductions over empty
arrays are modelled as `Option.none`.
-/

/-- A 3D point: one row of the `points` array. -/
structure Point where
  x : ℚ
  y : ℚ
  z : ℚ
deriving DecidableEq, Repr

/-- An RGB color: one row of the `colors` array. -/
structure Color where
  r : ℕ
  g : ℕ
  b : ℕ
deriving DecidableEq, Repr

/-- The `bounds` dictionary stored inside a point-cloud dictionary:
per-axis minimum, maximum and mean of the points. -/
structure BoundsR where
  bmin : Point
  bmax : Point
  center : Point
deriving DecidableEq, Repr

/-- The point-cloud dictionary: `points`, `colors`, the stored `n_points`
field and the stored `bounds` field. -/
structure PointCloud where
  points : List Point
  colors : List Color
  n_points : ℕ
  bounds : BoundsR
deriving DecidableEq, Repr

/-- Errors raised by the Python code: sklearn's parameter validation
(`n_clusters` out of range) and NumPy's `ValueError` on a zero-size
reduction (`min`/`max` of an empty selection). -/
inductive PyError where
  | invalidArgument : PyError
  | valueError : PyError
deriving DecidableEq, Repr

/-- `np.min` over a list of rationals (left fold); the empty case is junk
(every caller guards emptiness, mirroring NumPy's raise). -/
def listMin (xs : List ℚ) : ℚ :=
  match xs with
  | [] => 0
  | a :: t => t.foldl min a

/-- `np.max` over a list of rationals (left fold); empty case junk as above. -/
def listMax (xs : List ℚ) : ℚ :=
  match xs with
  | [] => 0
  | a :: t => t.foldl max a

/-- `np.mean` over a list of rationals: sum divided by length
(`0` on the empty list, where NumPy would produce NaN; callers treating
emptiness specially guard it explicitly). -/
def meanQ (xs : List ℚ) : ℚ := xs.sum / xs.length

/-- `points.min(axis=0)`: component-wise minimum. -/
def minPts (ps : List Point) : Point :=
  ⟨listMin (ps.map Point.x), listMin (ps.map Point.y), listMin (ps.map Point.z)⟩

/-- `points.max(axis=0)`: component-wise maximum. -/
def maxPts (ps : List Point) : Point :=
  ⟨listMax (ps.map Point.x), listMax (ps.map Point.y), listMax (ps.map Point.z)⟩

/-- `points.mean(axis=0)`: component-wise arithmetic mean. -/
def meanPts (ps : List Point) : Point :=
  ⟨meanQ (ps.map Point.x), meanQ (ps.map Point.y), meanQ (ps.map Point.z)⟩

/-- Bounds freshly computed from a list of points, as the generator and the
filter do: `{min, max, center}` from the points themselves. -/
def freshBounds (ps : List Point) : BoundsR :=
  ⟨minPts ps, maxPts ps, meanPts ps⟩

/-- The state of NumPy's global pseudo-random generator: the seed it was
last seeded with and the position reached in that seed's stream. -/
structure RNG where
  seed : ℕ
  pos : ℕ
deriving DecidableEq, Repr

/-- `np.random.seed(s)`: resets the global generator, discarding its
previous state entirely. -/
def np_random_seed (s : ℕ) (_st : RNG) : RNG := ⟨s, 0⟩

/-- `generate_sample_pointcloud(n_points)`.  `uni s i` is the `i`-th
uniform real draw of the stream seeded with `s` (already scaled to `[0,1)`),
`ints s i` the `i`-th integer draw; both streams are abstract parameters
because the Mersenne Twister itself is outside the repository.  The code
seeds the global generator with 42, draws `n // 2` base points uniform in
`[-5, 5]^3`, `n // 2` detail points uniform in `[-3, 3]^3` shifted by `+2`
on z, stacks them (so `2 * (n // 2)` points in total), draws `n` colors in
`[0, 254]`, and computes the stored bounds from the stacked points
(NumPy raises on the empty reductions when no points were generated). -/
def generate_sample_pointcloud (uni : ℕ → ℕ → ℚ) (ints : ℕ → ℕ → ℕ)
    (st : RNG) (n : ℕ) : Except PyError PointCloud :=
  let st0 := np_random_seed 42 st
  let m := n / 2
  let base := (List.range m).map (fun i =>
    Point.mk (-5 + 10 * uni st0.seed (st0.pos + 3 * i))
             (-5 + 10 * uni st0.seed (st0.pos + 3 * i + 1))
             (-5 + 10 * uni st0.seed (st0.pos + 3 * i + 2)))
  let detail := (List.range m).map (fun i =>
    Point.mk (-3 + 6 * uni st0.seed (st0.pos + 3 * m + 3 * i))
             (-3 + 6 * uni st0.seed (st0.pos + 3 * m + 3 * i + 1))
             ((-3 + 6 * uni st0.seed (st0.pos + 3 * m + 3 * i + 2)) + 2))
  let points := base ++ detail
  let colors := (List.range n).map (fun i =>
    Color.mk (ints st0.seed (3 * i) % 255)
             (ints st0.seed (3 * i + 1) % 255)
             (ints st0.seed (3 * i + 2) % 255))
  if points = [] then Except.error PyError.valueError
  else Except.ok ⟨points, colors, n, freshBounds points⟩

/-- The z-range retention predicate of `filter_pointcloud`: the boolean mask
entry for one point — `z >= z_min` when `z_min` is given, and, combined with
logical and, `z <= z_max` when `z_max` is given. -/
def zPred (z_min z_max : Option ℚ) (p : Point) : Bool :=
  (match z_min with
   | none => true
   | some a => decide (a ≤ p.z)) &&
  (match z_max with
   | none => true
   | some b => decide (p.z ≤ b))

/-- `filter_pointcloud(pointcloud, z_min, z_max)`.  Builds the boolean mask
from the points' z column, applies it positionally to points and colors
(NumPy raises when the colors array does not match the mask length), and
computes the stored bounds from the retained points — so NumPy raises a
`ValueError` (zero-size reduction) whenever the retained selection is
empty. -/
def filter_pointcloud (c : PointCloud) (z_min z_max : Option ℚ) :
    Except PyError PointCloud :=
  if c.colors.length ≠ c.points.length then Except.error PyError.valueError
  else
    let kept := (c.points.zip c.colors).filter (fun pc => zPred z_min z_max pc.1)
    let fps := kept.map Prod.fst
    let fcs := kept.map Prod.snd
    if fps = [] then Except.error PyError.valueError
    else Except.ok ⟨fps, fcs, fps.length, freshBounds fps⟩

/-- Python's `round(q, d)` for exact values: round `q` to the nearest
multiple of `10 ^ (-d)`, ties to the even multiple.  The integer part:
nearest integer to `q`, ties to even. -/
def roundHE {α : Type} [LinearOrderedField α] [FloorRing α] [DecidableEq α]
    (q : α) : ℤ :=
  if q - (⌊q⌋ : α) = 1 / 2 then (if ⌊q⌋ % 2 = 0 then ⌊q⌋ else ⌊q⌋ + 1)
  else round q

/-- `round(q, d)`: `q` rounded to `d` decimal places (ties to even). -/
def roundTo {α : Type} [LinearOrderedField α] [FloorRing α] [DecidableEq α]
    (d : ℕ) (q : α) : α :=
  ((roundHE (q * 10 ^ d) : ℤ) : α) / 10 ^ d

/-- `np.prod` of the per-axis extents of the stored bounds:
`(max[0]-min[0]) * (max[1]-min[1]) * (max[2]-min[2])`. -/
def volumeOfB (b : BoundsR) : ℚ :=
  (b.bmax.x - b.bmin.x) * (b.bmax.y - b.bmin.y) * (b.bmax.z - b.bmin.z)

/-- Population variance of one coordinate column (`np.std` squared,
`ddof = 0`): mean of squared deviations from the mean. -/
def varAxis (xs : List ℚ) : ℚ :=
  (xs.map (fun v => (v - meanQ xs) ^ 2)).sum / xs.length

/-- `points.std(axis=0)`: per-axis population standard deviation. -/
noncomputable def stdPts (ps : List Point) : ℝ × ℝ × ℝ :=
  (Real.sqrt ((varAxis (ps.map Point.x) : ℚ) : ℝ),
   Real.sqrt ((varAxis (ps.map Point.y) : ℚ) : ℝ),
   Real.sqrt ((varAxis (ps.map Point.z) : ℚ) : ℝ))

/-- `np.linalg.norm(p - q)`: the Euclidean distance between two points. -/
noncomputable def dist3 (p q : Point) : ℝ :=
  Real.sqrt (((p.x - q.x : ℚ) : ℝ) ^ 2 + ((p.y - q.y : ℚ) : ℝ) ^ 2 +
    ((p.z - q.z : ℚ) : ℝ) ^ 2)

/-- The `distances` list built by the metrics loop: the points are cut to
the prefix of the first `min(1000, len(points))` points, and for each `i`
up to the penultimate sample index the Euclidean distance between sample
point `i+1` and sample point `i` is appended. -/
noncomputable def sampleDistances (ps : List Point) : List ℝ :=
  (List.range ((ps.take (min 1000 ps.length)).length - 1)).map (fun i =>
    dist3 ((ps.take (min 1000 ps.length)).getD (i + 1) ⟨0, 0, 0⟩)
          ((ps.take (min 1000 ps.length)).getD i ⟨0, 0, 0⟩))

/-- The metrics dictionary returned by `calculate_pointcloud_metrics`.
`center` and `std` are `none` when NumPy would produce NaN (reductions over
an empty array). -/
structure Metrics where
  n_points : ℕ
  density : ℚ
  volume : ℚ
  center : Option Point
  std : Option (ℝ × ℝ × ℝ)
  avg_point_distance : ℝ
  bounds : BoundsR

/-- `calculate_pointcloud_metrics(pointcloud)`.  The volume is the product
of the extents of the cloud's STORED bounds (not recomputed from the
points); density is `len(points) / volume` when the volume is positive and
`0` otherwise, rounded to 4 decimal places; center and std are NumPy
reductions over the points (NaN, i.e. `none`, for an empty cloud); the
average point distance is the mean of Euclidean distances between
index-adjacent points of the prefix of the first `min(1000, len(points))`
points, rounded to 4 decimal places (`0` for clouds with at most one
point); the `bounds` entry of the result is the stored bounds, carried over
verbatim. -/
noncomputable def calculate_pointcloud_metrics (c : PointCloud) : Metrics :=
  let vol := volumeOfB c.bounds
  let density : ℚ := if 0 < vol then (c.points.length : ℚ) / vol else 0
  let distances := sampleDistances c.points
  let avg : ℝ :=
    if 1 < c.points.length then
      (if distances.length = 0 then 0 else distances.sum / (distances.length : ℝ))
    else 0
  { n_points := c.points.length
    density := roundTo 4 density
    volume := roundTo 2 vol
    center := if c.points = [] then none else some (meanPts c.points)
    std := if c.points = [] then none else some (stdPts c.points)
    avg_point_distance := roundTo 4 avg
    bounds := c.bounds }

/-- One entry of the `segments` dictionary: member count, member centroid
and member bounds (the code stores only `min` and `max` here). -/
structure Segment where
  n_points : ℕ
  center : Point
  bmin : Point
  bmax : Point
deriving DecidableEq, Repr

/-- `points[labels == j]`: the points whose positional label equals `j`. -/
def memberPoints (ps : List Point) (labels : List ℕ) (j : ℕ) : List Point :=
  ((ps.zip labels).filter (fun pl => pl.2 == j)).map Prod.fst

/-- `segment_pointcloud(pointcloud, n_clusters)`.  The sklearn `KMeans`
dependency is external to the repository and is modelled by its interface
contract: `fit_predict` validates `1 <= n_clusters <= n_samples` (raising
otherwise — the spec's `InvalidArgument`) and returns one cluster label per
input point; the concrete assignment `assign` is a parameter, since only
the labelling interface, not the numeric clustering, is determined.  The
code then builds, for each label `j` in `[0, k)`, a segment from
`points[labels == j]` with its count, centroid and min/max bounds; the
NumPy reductions raise a `ValueError` if some cluster is empty. -/
def segment_pointcloud (assign : List Point → ℕ → List ℕ) (c : PointCloud)
    (k : ℤ) : Except PyError (List Segment) :=
  if 1 ≤ k ∧ k ≤ (c.points.length : ℤ) then
    let kn := k.toNat
    let labels := assign c.points kn
    if ∀ j ∈ List.range kn, memberPoints c.points labels j ≠ [] then
      Except.ok ((List.range kn).map (fun j =>
        let ms := memberPoints c.points labels j
        ⟨ms.length, meanPts ms, minPts ms, maxPts ms⟩))
    else Except.error PyError.valueError
  else Except.error PyError.invalidArgument

/-- Spec-side definition (from the spec's words, for comparison with the
code): the mean point distance described in §4.2 — sum the Euclidean
distances between index-adjacent points of the sample and divide by the
number of adjacent pairs. -/
noncomputable def specMeanAdjDist (ps : List Point) : ℝ :=
  ((ps.zip ps.tail).map (fun pq => dist3 pq.1 pq.2)).sum / ((ps.length - 1 : ℕ) : ℝ)

/-- A 2-point cloud with consistent stored bounds, for exercising the
segmentation partition properties. -/
def c1cloud : PointCloud :=
  ⟨[⟨0, 0, 0⟩, ⟨10, 0, 0⟩], [⟨1, 1, 1⟩, ⟨2, 2, 2⟩], 2,
    ⟨⟨0, 0, 0⟩, ⟨10, 0, 0⟩, ⟨5, 0, 0⟩⟩⟩

/-- A concrete label assignment standing in for sklearn `fit_predict`:
point 0 to cluster 0, point 1 to cluster 1. -/
def c1assign : List Point → ℕ → List ℕ := fun _ _ => [0, 1]

/-- A 2-point cloud whose z-coordinates are 0 and 1: the z-range
`z_min = 10` rejects both points. -/
def c3cloud : PointCloud :=
  ⟨[⟨0, 0, 0⟩, ⟨0, 0, 1⟩], [⟨1, 1, 1⟩, ⟨2, 2, 2⟩], 2,
    ⟨⟨0, 0, 0⟩, ⟨0, 0, 1⟩, ⟨0, 0, 1 / 2⟩⟩⟩

/-- A 2-point cloud with z-coordinates 0 and 5, one retained by the range
`[0, 3]`. -/
def c3wcloud : PointCloud :=
  ⟨[⟨0, 0, 0⟩, ⟨0, 0, 5⟩], [⟨1, 1, 1⟩, ⟨2, 2, 2⟩], 2,
    ⟨⟨0, 0, 0⟩, ⟨0, 0, 5⟩, ⟨0, 0, 5 / 2⟩⟩⟩

/-- A single-point cloud at the origin: `z_min = 1` rejects its only
point. -/
def c4cloud : PointCloud :=
  ⟨[⟨0, 0, 0⟩], [⟨1, 2, 3⟩], 1, ⟨⟨0, 0, 0⟩, ⟨0, 0, 0⟩, ⟨0, 0, 0⟩⟩⟩

/-- A zero-point cloud (with some stored bounds, as a cloud built upstream
might carry). -/
def c5cloud : PointCloud :=
  ⟨[], [], 0, ⟨⟨0, 0, 0⟩, ⟨0, 0, 0⟩, ⟨0, 0, 0⟩⟩⟩

/-- A 2-point cloud with consistent bounds of volume 27; its exact density
`2 / 27` has an infinite decimal expansion. -/
def c6cloud : PointCloud :=
  ⟨[⟨0, 0, 0⟩, ⟨3, 3, 3⟩], [⟨1, 1, 1⟩, ⟨2, 2, 2⟩], 2,
    ⟨⟨0, 0, 0⟩, ⟨3, 3, 3⟩, ⟨3 / 2, 3 / 2, 3 / 2⟩⟩⟩

/-- A 2-point cloud all of whose points share the z-coordinate 0, so the
stored bounds have zero extent on z (degenerate volume). -/
def c6flat : PointCloud :=
  ⟨[⟨0, 0, 0⟩, ⟨1, 1, 0⟩], [⟨1, 1, 1⟩, ⟨2, 2, 2⟩], 2,
    ⟨⟨0, 0, 0⟩, ⟨1, 1, 0⟩, ⟨1 / 2, 1 / 2, 0⟩⟩⟩

/-- A single-point cloud at the origin whose STORED bounds are stale: they
record `(9, 9, 9)` everywhere, disagreeing with the points. -/
def c7cloud : PointCloud :=
  ⟨[⟨0, 0, 0⟩], [⟨1, 2, 3⟩], 1, ⟨⟨9, 9, 9⟩, ⟨9, 9, 9⟩, ⟨9, 9, 9⟩⟩⟩

/-- A 2-point cloud whose adjacent distance is `1 / 100000`, below the
4-decimal rounding resolution of the reported average. -/
def c8cloud : PointCloud :=
  ⟨[⟨0, 0, 0⟩, ⟨1 / 100000, 0, 0⟩], [⟨1, 1, 1⟩, ⟨2, 2, 2⟩], 2,
    ⟨⟨0, 0, 0⟩, ⟨1 / 100000, 0, 0⟩, ⟨1 / 200000, 0, 0⟩⟩⟩

/-- A 2-point cloud with adjacent distance exactly 1. -/
def c8wcloud : PointCloud :=
  ⟨[⟨0, 0, 0⟩, ⟨1, 0, 0⟩], [⟨1, 1, 1⟩, ⟨2, 2, 2⟩], 2,
    ⟨⟨0, 0, 0⟩, ⟨1, 0, 0⟩, ⟨1 / 2, 0, 0⟩⟩⟩

/-- A single-point cloud used to exercise the segmentation argument
validation. -/
def c9cloud : PointCloud :=
  ⟨[⟨0, 0, 0⟩], [⟨1, 2, 3⟩], 1, ⟨⟨0, 0, 0⟩, ⟨0, 0, 0⟩, ⟨0, 0, 0⟩⟩⟩

lemma roundTo_zero {α : Type} [LinearOrderedField α] [FloorRing α]
    [DecidableEq α] (d : ℕ) : roundTo d (0 : α) = 0 := by
  rw [roundTo, roundHE]
  norm_num

lemma dist3_comm (p q : Point) : dist3 p q = dist3 q p := by
  rw [dist3, dist3]
  push_cast
  ring_nf

lemma range_map_adj {β : Type} (f : Point → Point → β) (d : Point) :
    ∀ ps : List Point,
      (List.range (ps.length - 1)).map
        (fun i => f (ps.getD (i + 1) d) (ps.getD i d)) =
      (ps.zip ps.tail).map (fun pq => f pq.2 pq.1) := by
  intro ps
  induction ps with
  | nil => simp
  | cons a t ih =>
    cases t with
    | nil => simp
    | cons b t2 =>
      have hlen : (a :: b :: t2 : List Point).length - 1 =
          ((b :: t2 : List Point).length - 1) + 1 := by simp
      rw [hlen, List.range_succ_eq_map, List.map_cons, List.map_map]
      simp only [Function.comp_def, List.getD_cons_succ, List.getD_cons_zero]
      simp only [List.getD_cons_succ] at ih
      rw [ih]
      simp

lemma memberPoints_length (ps : List Point) (labels : List ℕ) (j : ℕ)
    (h : labels.length = ps.length) :
    (memberPoints ps labels j).length = labels.count j := by
  induction ps generalizing labels with
  | nil =>
    cases labels with
    | nil => simp [memberPoints]
    | cons l ls => simp at h
  | cons p pt ih =>
    cases labels with
    | nil => simp at h
    | cons l ls =>
      have h2 : ls.length = pt.length := by simpa using h
      have ih3 := ih ls h2
      simp only [memberPoints, List.length_map] at ih3
      by_cases hl : l = j
      · simp [memberPoints, List.zip_cons_cons, List.filter_cons, hl,
          List.count_cons, ih3]
      · simp [memberPoints, List.zip_cons_cons, List.filter_cons, hl,
          List.count_cons, ih3]

lemma sum_count_range (labels : List ℕ) (k : ℕ)
    (h : ∀ l ∈ labels, l < k) :
    ∑ j in Finset.range k, labels.count j = labels.length := by
  induction labels with
  | nil => simp
  | cons a t ih =>
    have ha : a ∈ Finset.range k := Finset.mem_range.mpr (h a (by simp))
    have ih2 := ih (fun l hl => h l (by simp [hl]))
    simp only [List.count_cons]
    rw [Finset.sum_add_distrib, ih2]
    have hone : ∑ j in Finset.range k, (if a == j then 1 else 0) = 1 := by
      have : ∀ j, (if a == j then (1 : ℕ) else 0) = if a = j then 1 else 0 := by
        intro j
        by_cases hj : a = j <;> simp [hj]
      rw [Finset.sum_congr rfl (fun j _ => this j), Finset.sum_ite_eq, if_pos ha]
    rw [hone]
    simp [List.length_cons]

lemma memberPoints_ne_nil (ps : List Point) (labels : List ℕ) (j : ℕ)
    (h : labels.length = ps.length) (hj : j ∈ labels) :
    memberPoints ps labels j ≠ [] := by
  have hlen := memberPoints_length ps labels j h
  have hc : 0 < labels.count j := List.count_pos_iff.mpr hj
  intro hnil
  rw [hnil] at hlen
  simp at hlen
  omega

lemma list_range_map_sum (f : ℕ → ℕ) (k : ℕ) :
    ((List.range k).map f).sum = ∑ j in Finset.range k, f j := by
  induction k with
  | zero => simp
  | succ n ih =>
    rw [List.range_succ, List.map_append, List.sum_append, Finset.sum_range_succ, ih]
    simp

lemma zip_filter_fst (ps : List Point) (cs : List Color) (pred : Point → Bool)
    (h : cs.length = ps.length) :
    ((ps.zip cs).filter (fun pc => pred pc.1)).map Prod.fst = ps.filter pred := by
  induction ps generalizing cs with
  | nil => simp
  | cons p pt ih =>
    cases cs with
    | nil => simp at h
    | cons c ct =>
      have h2 : ct.length = pt.length := by simpa using h
      by_cases hp : pred p
      · simp [List.zip_cons_cons, List.filter_cons, hp, ih ct h2]
      · simp [List.zip_cons_cons, List.filter_cons, hp, ih ct h2]

lemma zip_map_snd (ps : List Point) (cs : List Color)
    (h : cs.length = ps.length) :
    (ps.zip cs).map Prod.snd = cs := by
  induction ps generalizing cs with
  | nil =>
    cases cs with
    | nil => simp
    | cons c ct => simp at h
  | cons p pt ih =>
    cases cs with
    | nil => simp at h
    | cons c ct =>
      have h2 : ct.length = pt.length := by simpa using h
      simp [List.zip_cons_cons, ih ct h2]

lemma metrics_n_points (c : PointCloud) :
    (calculate_pointcloud_metrics c).n_points = c.points.length := rfl

lemma metrics_density (c : PointCloud) :
    (calculate_pointcloud_metrics c).density =
      roundTo 4 (if 0 < volumeOfB c.bounds then
        (c.points.length : ℚ) / volumeOfB c.bounds else 0) := rfl

lemma metrics_volume (c : PointCloud) :
    (calculate_pointcloud_metrics c).volume = roundTo 2 (volumeOfB c.bounds) := rfl

lemma metrics_center (c : PointCloud) :
    (calculate_pointcloud_metrics c).center =
      (if c.points = [] then none else some (meanPts c.points)) := rfl

lemma metrics_std (c : PointCloud) :
    (calculate_pointcloud_metrics c).std =
      (if c.points = [] then none else some (stdPts c.points)) := rfl

lemma metrics_bounds (c : PointCloud) :
    (calculate_pointcloud_metrics c).bounds = c.bounds := rfl

lemma metrics_avg (c : PointCloud) :
    (calculate_pointcloud_metrics c).avg_point_distance =
      roundTo 4 (
        if 1 < c.points.length then
          (if (sampleDistances c.points).length = 0 then 0
           else (sampleDistances c.points).sum /
             ((sampleDistances c.points).length : ℝ))
        else 0) := rfl

/-- C10: the sample generator is deterministic — because the code executes
`np.random.seed(42)` at the start of every call, the result is identical
for any two incoming global generator states, so it depends on no input
other than the point count (the ambient Mersenne streams `uni`/`ints` are
fixed by NumPy). -/
theorem C10_generator_deterministic (uni : ℕ → ℕ → ℚ) (ints : ℕ → ℕ → ℕ)
    (st st' : RNG) (n : ℕ) :
    generate_sample_pointcloud uni ints st n =
      generate_sample_pointcloud uni ints st' n := rfl

/-- C2 (failing input): at the odd count `n_points = 3` the generator
returns a cloud with 2 points (`2 * (3 // 2)`) but 3 colors, while
reporting `n_points = 3` — so the claimed invariant
`len(colors) == len(points)` fails, whatever the random streams and
incoming generator state. -/
theorem C2_odd_count_mismatch (uni : ℕ → ℕ → ℚ) (ints : ℕ → ℕ → ℕ)
    (st : RNG) :
    (generate_sample_pointcloud uni ints st 3).map
        (fun c => (c.points.length, c.colors.length, c.n_points)) =
      Except.ok (2, 3, 3) := rfl

/-- C9: a cluster count `k <= 0` or `k` exceeding the point count makes
`segment_pointcloud` fail with the invalid-argument error (sklearn's
parameter validation), returning no segment list. -/
theorem C9_invalid_k_fails (assign : List Point → ℕ → List ℕ)
    (c : PointCloud) (k : ℤ)
    (h : k ≤ 0 ∨ (c.points.length : ℤ) < k) :
    segment_pointcloud assign c k = Except.error PyError.invalidArgument := by
  rw [segment_pointcloud, if_neg]
  rintro ⟨h1, h2⟩
  rcases h with h | h
  · omega
  · omega

/-- Witness for C9 at a concrete input: `k = 0` on a one-point cloud. -/
theorem C9_witness :
    ((0 : ℤ) ≤ 0 ∨ ((c9cloud.points.length : ℤ) < 0)) ∧
      segment_pointcloud (fun _ _ => [0]) c9cloud 0 =
        Except.error PyError.invalidArgument :=
  ⟨Or.inl le_rfl, C9_invalid_k_fails (fun _ _ => [0]) c9cloud 0 (Or.inl le_rfl)⟩

/-- C4 (failing input): filtering a one-point cloud with a z-range that
rejects its only point does NOT return a valid empty cloud — the bounds
computation over the empty selection raises (NumPy `ValueError`), so the
filter call itself fails. -/
theorem C4_filter_empty_result_raises :
    filter_pointcloud c4cloud (some 1) none = Except.error PyError.valueError := by
  rfl

/-- C5 (counterexample): on a zero-point cloud `calculate_pointcloud_metrics`
does not fail at all — it returns a metrics value whose center and standard
deviation are the NaN results of NumPy reductions over an empty array
(modelled as `none`), contradicting both "fails with EmptyInput" and
"never returns a Metrics value with NaN extents". -/
theorem C5_counterexample :
    (calculate_pointcloud_metrics c5cloud).center = none ∧
      (calculate_pointcloud_metrics c5cloud).std = none :=
  ⟨rfl, rfl⟩

/-- C5 (amended): for every zero-point cloud, whatever its stored bounds,
the metrics computation succeeds and returns count 0, density 0, NaN
(undefined) center and standard deviation, average distance 0, and the
stored bounds carried over; no EmptyInput error is raised. -/
theorem C5_empty_cloud_metrics (b : BoundsR) (cs : List Color) (m : ℕ) :
    (calculate_pointcloud_metrics ⟨[], cs, m, b⟩).n_points = 0 ∧
    (calculate_pointcloud_metrics ⟨[], cs, m, b⟩).center = none ∧
    (calculate_pointcloud_metrics ⟨[], cs, m, b⟩).std = none ∧
    (calculate_pointcloud_metrics ⟨[], cs, m, b⟩).density = 0 ∧
    (calculate_pointcloud_metrics ⟨[], cs, m, b⟩).avg_point_distance = 0 ∧
    (calculate_pointcloud_metrics ⟨[], cs, m, b⟩).bounds = b := by
  refine ⟨rfl, rfl, rfl, ?_, ?_, rfl⟩
  · rw [metrics_density]
    by_cases h : 0 < volumeOfB (PointCloud.mk [] cs m b).bounds
    · rw [if_pos h]
      simp only [List.length_nil, Nat.cast_zero, zero_div]
      exact roundTo_zero 4
    · rw [if_neg h]
      exact roundTo_zero 4
  · rw [metrics_avg]
    rw [if_neg (by simp)]
    exact roundTo_zero 4

/-- C7 (counterexample): on a cloud whose stored bounds are stale, the
metrics' bounds are NOT the component-wise minimum over the points: the
returned minimum is the carried-over stale value `(9,9,9)` although the
points' minimum is `(0,0,0)`. -/
theorem C7_counterexample :
    (calculate_pointcloud_metrics c7cloud).bounds.bmin ≠ minPts c7cloud.points ∧
      (calculate_pointcloud_metrics c7cloud).bounds = c7cloud.bounds := by
  constructor
  · intro h
    have hx : (9 : ℚ) = 0 := congrArg Point.x h
    norm_num at hx
  · rfl

/-- C7 (amended): the metrics' `bounds` entry is the cloud's STORED bounds,
carried over verbatim rather than recomputed; only the center (the
component-wise mean) is computed fresh from the points on each call. -/
theorem C7_bounds_carried (c : PointCloud) :
    (calculate_pointcloud_metrics c).bounds = c.bounds ∧
      (c.points ≠ [] →
        (calculate_pointcloud_metrics c).center = some (meanPts c.points)) := by
  refine ⟨rfl, fun h => ?_⟩
  rw [metrics_center, if_neg h]

/-- Witness for C7 at a concrete nonempty cloud. -/
theorem C7_witness :
    c7cloud.points ≠ [] ∧
      (calculate_pointcloud_metrics c7cloud).center = some (meanPts c7cloud.points) :=
  ⟨by decide, (C7_bounds_carried c7cloud).2 (by decide)⟩

/-- C6 (counterexample): on a 2-point cloud with consistent bounds of
volume 27, the reported density is `0.0741` — the 4-decimal rounding of
`2 / 27` — and therefore differs from the exact value `count / volume`
that the claim states. -/
theorem C6_counterexample :
    0 < volumeOfB c6cloud.bounds ∧
      (calculate_pointcloud_metrics c6cloud).density ≠
        (c6cloud.points.length : ℚ) / volumeOfB c6cloud.bounds ∧
      (calculate_pointcloud_metrics c6cloud).density = 741 / 10000 := by
  have hv : volumeOfB c6cloud.bounds = 27 := by norm_num [c6cloud, volumeOfB]
  have hlen : ((c6cloud.points.length : ℕ) : ℚ) = 2 := by norm_num [c6cloud]
  have hd : (calculate_pointcloud_metrics c6cloud).density = 741 / 10000 := by
    rw [metrics_density, hv, hlen, if_pos (by norm_num)]
    rw [roundTo, roundHE]
    rw [if_neg (by norm_num [Int.floor_eq_iff])]
    rw [round_eq]
    norm_num [Int.floor_eq_iff]
  refine ⟨by rw [hv]; norm_num, ?_, hd⟩
  rw [hd, hv, hlen]
  norm_num

/-- C6 (amended): the reported density is `count / volume` rounded to 4
decimal places when the stored-bounds volume is positive, and exactly 0
when the volume is not positive; in particular a degenerate volume (some
axis with equal stored min and max, e.g. all points sharing one coordinate
on that axis, or a cloud with at most one point and consistent bounds)
reports density exactly 0 — never infinity and never an error. -/
theorem C6_density_sentinel (c : PointCloud) :
    (0 < volumeOfB c.bounds →
      (calculate_pointcloud_metrics c).density =
        roundTo 4 ((c.points.length : ℚ) / volumeOfB c.bounds)) ∧
    (volumeOfB c.bounds ≤ 0 → (calculate_pointcloud_metrics c).density = 0) ∧
    ((c.bounds.bmax.x = c.bounds.bmin.x ∨ c.bounds.bmax.y = c.bounds.bmin.y ∨
        c.bounds.bmax.z = c.bounds.bmin.z) →
      (calculate_pointcloud_metrics c).density = 0) := by
  have h2 : volumeOfB c.bounds ≤ 0 → (calculate_pointcloud_metrics c).density = 0 := by
    intro h
    rw [metrics_density, if_neg (not_lt.mpr h)]
    exact roundTo_zero 4
  refine ⟨fun h => ?_, h2, fun h => ?_⟩
  · rw [metrics_density, if_pos h]
  · apply h2
    rcases h with h | h | h <;> simp [volumeOfB, h]

/-- Witness for C6 at concrete inputs: the positive-volume branch on the
volume-27 cloud and the degenerate-volume sentinel on the flat cloud. -/
theorem C6_witness :
    (0 < volumeOfB c6cloud.bounds ∧
      (calculate_pointcloud_metrics c6cloud).density =
        roundTo 4 ((c6cloud.points.length : ℚ) / volumeOfB c6cloud.bounds)) ∧
    (c6flat.bounds.bmax.z = c6flat.bounds.bmin.z ∧
      (calculate_pointcloud_metrics c6flat).density = 0) :=
  ⟨⟨by norm_num [c6cloud, volumeOfB],
    (C6_density_sentinel c6cloud).1 (by norm_num [c6cloud, volumeOfB])⟩,
   ⟨rfl, (C6_density_sentinel c6flat).2.2 (Or.inr (Or.inr rfl))⟩⟩

/-- C3 (counterexample): the claim quantifies over every cloud and every
optional pair of bounds, but a range rejecting all points makes the filter
raise (NumPy `ValueError` from the empty-selection bounds reduction)
instead of producing an output retaining exactly the points that satisfy
the predicate. -/
theorem C3_counterexample :
    filter_pointcloud c3cloud (some 10) none = Except.error PyError.valueError := rfl

/-- C3 (amended): for every cloud whose colors and points have equal length
and every z-range retaining at least one point, the filter succeeds and its
output retains a point exactly when the z-predicate holds, in input order
(the output points are a sublist of the input points), with the paired
colors selected positionally; with both bounds absent every point and
color is retained. -/
theorem C3_filter_semantics (c : PointCloud) (z1 z2 : Option ℚ)
    (hlen : c.colors.length = c.points.length)
    (hne : c.points.filter (zPred z1 z2) ≠ []) :
    ∃ out, filter_pointcloud c z1 z2 = Except.ok out ∧
      out.points = c.points.filter (zPred z1 z2) ∧
      (∀ p, p ∈ out.points ↔ p ∈ c.points ∧ zPred z1 z2 p = true) ∧
      List.Sublist out.points c.points ∧
      out.colors = ((c.points.zip c.colors).filter
        (fun pc => zPred z1 z2 pc.1)).map Prod.snd ∧
      (z1 = none → z2 = none → out.points = c.points ∧ out.colors = c.colors) := by
  have hfst := zip_filter_fst c.points c.colors (zPred z1 z2) hlen
  rw [filter_pointcloud, if_neg (fun hcon => hcon hlen)]
  simp only [hfst]
  rw [if_neg hne]
  refine ⟨_, rfl, rfl, ?_, ?_, rfl, ?_⟩
  · intro p
    exact List.mem_filter
  · exact List.filter_sublist c.points
  · intro h1 h2
    subst h1
    subst h2
    constructor
    · exact List.filter_eq_self.mpr (fun a _ => rfl)
    · have hpred : (fun (pc : Point × Color) => zPred none none pc.1) =
          (fun _ => true) := rfl
      rw [hpred, List.filter_true]
      exact zip_map_snd c.points c.colors hlen

/-- Witness for C3 at a concrete input: the range `[0, 3]` on a cloud with
z-coordinates 0 and 5 retains exactly the first point. -/
theorem C3_witness :
    (c3wcloud.colors.length = c3wcloud.points.length ∧
      c3wcloud.points.filter (zPred (some 0) (some 3)) ≠ []) ∧
    (∃ out, filter_pointcloud c3wcloud (some 0) (some 3) = Except.ok out ∧
      out.points = c3wcloud.points.filter (zPred (some 0) (some 3)) ∧
      (∀ p, p ∈ out.points ↔ p ∈ c3wcloud.points ∧
        zPred (some 0) (some 3) p = true) ∧
      List.Sublist out.points c3wcloud.points ∧
      out.colors = ((c3wcloud.points.zip c3wcloud.colors).filter
        (fun pc => zPred (some 0) (some 3) pc.1)).map Prod.snd ∧
      (some (0 : ℚ) = none → some (3 : ℚ) = none →
        out.points = c3wcloud.points ∧ out.colors = c3wcloud.colors)) :=
  ⟨⟨by decide, by decide⟩,
    C3_filter_semantics c3wcloud (some 0) (some 3) (by decide) (by decide)⟩

/-- C1: for every cloud and every positive `k` not exceeding the point
count, given labels satisfying the sklearn `fit_predict` contract (one
label per point, labels in `[0, k)`, every cluster inhabited — sklearn
relocates points so that no cluster is empty when `n_samples >= n_clusters`),
segmentation returns exactly `k` segments, the member counts sum to the
point count, and every point index carries exactly one cluster label. -/
theorem C1_segment_partition (assign : List Point → ℕ → List ℕ)
    (c : PointCloud) (k : ℕ) (hk : 0 < k) (hkn : k ≤ c.points.length)
    (hlen : (assign c.points k).length = c.points.length)
    (hrange : ∀ l ∈ assign c.points k, l < k)
    (hsurj : ∀ j ∈ List.range k, j ∈ assign c.points k) :
    ∃ segs, segment_pointcloud assign c (k : ℤ) = Except.ok segs ∧
      segs.length = k ∧
      (segs.map Segment.n_points).sum = c.points.length ∧
      (∀ i, i < c.points.length →
        ∃! j, j < k ∧ (assign c.points k).getD i 0 = j) := by
  have hcond : 1 ≤ (k : ℤ) ∧ (k : ℤ) ≤ (c.points.length : ℤ) :=
    ⟨by exact_mod_cast hk, by exact_mod_cast hkn⟩
  have htn : ((k : ℤ)).toNat = k := by omega
  simp only [segment_pointcloud, htn]
  rw [if_pos hcond]
  rw [if_pos ?hall]
  case hall =>
    intro j hj
    exact memberPoints_ne_nil c.points (assign c.points k) j hlen (hsurj j hj)
  refine ⟨_, rfl, ?_, ?_, ?_⟩
  · simp
  · rw [List.map_map, list_range_map_sum]
    calc ∑ j in Finset.range k,
          (memberPoints c.points (assign c.points k) j).length
        = ∑ j in Finset.range k, (assign c.points k).count j :=
          Finset.sum_congr rfl
            (fun j _ => memberPoints_length c.points (assign c.points k) j hlen)
      _ = (assign c.points k).length := sum_count_range _ _ hrange
      _ = c.points.length := hlen
  · intro i hi
    have hi' : i < (assign c.points k).length := by rw [hlen]; exact hi
    have hmem : (assign c.points k).getD i 0 ∈ assign c.points k := by
      rw [List.getD_eq_get _ _ hi']
      exact List.get_mem _ _ _
    refine ⟨(assign c.points k).getD i 0, ⟨hrange _ hmem, rfl⟩, ?_⟩
    rintro j ⟨hjk, hj⟩
    exact hj.symm

/-- Witness for C1 at a concrete input: two points split into two
singleton clusters. -/
theorem C1_witness :
    (0 < 2 ∧ 2 ≤ c1cloud.points.length ∧
      (c1assign c1cloud.points 2).length = c1cloud.points.length ∧
      (∀ l ∈ c1assign c1cloud.points 2, l < 2) ∧
      (∀ j ∈ List.range 2, j ∈ c1assign c1cloud.points 2)) ∧
    (∃ segs, segment_pointcloud c1assign c1cloud ((2 : ℕ) : ℤ) = Except.ok segs ∧
      segs.length = 2 ∧
      (segs.map Segment.n_points).sum = c1cloud.points.length ∧
      (∀ i, i < c1cloud.points.length →
        ∃! j, j < 2 ∧ (c1assign c1cloud.points 2).getD i 0 = j)) :=
  ⟨⟨by decide, by decide, by decide, by decide, by decide⟩,
    C1_segment_partition c1assign c1cloud 2 (by decide) (by decide) (by decide)
      (by decide) (by decide)⟩

/-- C8 (amended): the reported mean point distance is the spec's
adjacent-pair average over the prefix of the first `min(1000, count)`
points, ROUNDED to 4 decimal places; with at most one point it is 0. -/
theorem C8_avg_distance (c : PointCloud) :
    (1 < c.points.length →
      (calculate_pointcloud_metrics c).avg_point_distance =
        roundTo 4 (specMeanAdjDist (c.points.take (min 1000 c.points.length)))) ∧
    (c.points.length ≤ 1 →
      (calculate_pointcloud_metrics c).avg_point_distance = 0) := by
  constructor
  · intro h
    rw [metrics_avg, if_pos h]
    have hsplen : (c.points.take (min 1000 c.points.length)).length
        = min 1000 c.points.length := by
      rw [List.length_take]
      omega
    have hdlen : (sampleDistances c.points).length
        = min 1000 c.points.length - 1 := by
      rw [sampleDistances, List.length_map, List.length_range, hsplen]
    have hne : ¬ (sampleDistances c.points).length = 0 := by
      rw [hdlen]
      omega
    rw [if_neg hne]
    have hlist : sampleDistances c.points =
        ((c.points.take (min 1000 c.points.length)).zip
          (c.points.take (min 1000 c.points.length)).tail).map
          (fun pq => dist3 pq.1 pq.2) := by
      rw [sampleDistances, range_map_adj dist3 ⟨0, 0, 0⟩]
      apply List.map_congr_left
      intro pq _
      exact dist3_comm pq.2 pq.1
    have hmaplen :
        (((c.points.take (min 1000 c.points.length)).zip
            (c.points.take (min 1000 c.points.length)).tail).map
          (fun pq => dist3 pq.1 pq.2)).length
        = (c.points.take (min 1000 c.points.length)).length - 1 := by
      rw [← hlist, hdlen, hsplen]
    rw [hlist, specMeanAdjDist, hmaplen]
  · intro h
    rw [metrics_avg, if_neg (by omega)]
    exact roundTo_zero 4

/-- C8 (counterexample): on a 2-point cloud at distance `1/100000`, the
value the claim describes (sum of adjacent distances divided by the number
of adjacent pairs) is `1/100000`, but the reported mean point distance is
`0`: the code rounds the average to 4 decimal places before reporting. -/
theorem C8_counterexample :
    c8cloud.points.take (min 1000 c8cloud.points.length) = c8cloud.points ∧
      specMeanAdjDist c8cloud.points = 1 / 100000 ∧
      (calculate_pointcloud_metrics c8cloud).avg_point_distance = 0 ∧
      ((1 : ℝ) / 100000 ≠ 0) := by
  have hdist : dist3 (⟨1/100000, 0, 0⟩ : Point) (⟨0, 0, 0⟩ : Point) = 1 / 100000 := by
    rw [dist3]
    have harg : (((⟨1/100000, 0, 0⟩ : Point).x - (⟨0, 0, 0⟩ : Point).x : ℚ) : ℝ) ^ 2 +
        (((⟨1/100000, 0, 0⟩ : Point).y - (⟨0, 0, 0⟩ : Point).y : ℚ) : ℝ) ^ 2 +
        (((⟨1/100000, 0, 0⟩ : Point).z - (⟨0, 0, 0⟩ : Point).z : ℚ) : ℝ) ^ 2 =
        ((1 : ℝ) / 100000) ^ 2 := by
      push_cast
      norm_num
    rw [harg, Real.sqrt_sq (by norm_num)]
  have hround : roundTo 4 ((1 : ℝ) / 100000) = 0 := by
    rw [roundTo, roundHE]
    rw [show (1 : ℝ) / 100000 * 10 ^ 4 = 1 / 10 by norm_num]
    have hfl : ⌊(1 / 10 : ℝ)⌋ = 0 := by norm_num [Int.floor_eq_iff]
    rw [if_neg (by rw [hfl]; norm_num)]
    have hfl2 : ⌊(1 / 10 : ℝ) + 1 / 2⌋ = 0 := by norm_num [Int.floor_eq_iff]
    rw [round_eq, hfl2]
    norm_num
  refine ⟨rfl, ?_, ?_, by norm_num⟩
  · have h1 : specMeanAdjDist c8cloud.points =
        (dist3 (⟨0, 0, 0⟩ : Point) (⟨1/100000, 0, 0⟩ : Point) + 0) /
          ((1 : ℕ) : ℝ) := rfl
    rw [h1, dist3_comm, hdist]
    norm_num
  · rw [metrics_avg, if_pos (by decide)]
    rw [show sampleDistances c8cloud.points =
      [dist3 (⟨1/100000, 0, 0⟩ : Point) (⟨0, 0, 0⟩ : Point)] from rfl]
    rw [if_neg (by norm_num)]
    have hval : ([dist3 (⟨1/100000, 0, 0⟩ : Point) (⟨0, 0, 0⟩ : Point)] : List ℝ).sum /
        (([dist3 (⟨1/100000, 0, 0⟩ : Point) (⟨0, 0, 0⟩ : Point)] : List ℝ).length : ℝ) =
        1 / 100000 := by
      simp only [List.sum_cons, List.sum_nil, add_zero, List.length_cons,
        List.length_nil, zero_add, Nat.cast_one, div_one]
      exact hdist
    rw [hval, hround]

/-- Witness for C8 at a concrete input: a 2-point cloud with adjacent
distance exactly 1. -/
theorem C8_witness :
    1 < c8wcloud.points.length ∧
      (calculate_pointcloud_metrics c8wcloud).avg_point_distance =
        roundTo 4 (specMeanAdjDist
          (c8wcloud.points.take (min 1000 c8wcloud.points.length))) :=
  ⟨by decide, (C8_avg_distance c8wcloud).1 (by decide)⟩
